import Mathlib

/-!
# Verification of the sudokuZ3Solver constraint model and parsers

Shallow embedding of `src/sudoku-Z3-solver.py` (class `Sudoku`).  Python
strings are embedded as Lean `String`s (a Python character is a length-one
string; where the code iterates over a string we work with `String.toList`).
Python dicts built from `zip(elements, chars)` are embedded as association
lists (`List (String × String)`) with `List.lookup` access; the key list
`elements` is duplicate-free, so first-match lookup coincides with Python
dict semantics.  Exceptions are embedded as `Except PyError`; each distinct
`raise` site in the source gets its own `PyError` constructor (the spec's
names for them: `MalformedPuzzle` for `Exception("got invalid puzzle
format")`, `Unsatisfiable` for `Exception("Unsolvable")`,
`UnknownCellReference` for the `KeyError` raised when a cage expression
mentions a key missing from `symbols`, `TypeError` for iterating `None`).
The Z3 backend is external: it is embedded as a value of type `Z3Result`
(the spec's collaborator contract: either one satisfying assignment or
UNSAT) handed to `solve_z3`, and the constraints the code adds to the
solver are embedded as the predicate `sudokuConstraints`.
-/

namespace Sudoku

/-- Error taxonomy: one constructor per distinct failure site of the code. -/
inductive PyError where
  | malformedPuzzle
  | unsolvable
  | unknownCellReference
  | typeError
  | indexError
  | valueError
deriving DecidableEq, Repr

/-- Source: `self.rows = "ABCDEFGHI"` (line 26). -/
def rows : List Char := "ABCDEFGHI".toList

/-- Source: `self.cols = "123456789"` (line 26). -/
def cols : List Char := "123456789".toList

/-- Source: `cross(A, B) = [(a + b) for a in A for b in B]` (lines 43-45). -/
def cross (A B : List Char) : List String :=
  A.flatMap (fun a => B.map (fun b => String.mk [a, b]))

/-- Source: `self.elements = self.cross(self.rows, self.cols)` (line 27). -/
def elements : List String := cross rows cols

/-- Source: `self.unit_cols = [self.cross(self.rows, c) for c in self.cols]` (line 33). -/
def unit_cols : List (List String) := cols.map (fun c => cross rows [c])

/-- Source: `self.unit_rows = [self.cross(r, self.cols) for r in self.rows]` (line 34). -/
def unit_rows : List (List String) := rows.map (fun r => cross [r] cols)

/-- Source: `self.unit_boxes = [self.cross(rs, cs) for rs in ["ABC","DEF","GHI"] for cs in ["123","456","789"]]` (line 35). -/
def unit_boxes : List (List String) :=
  (["ABC".toList, "DEF".toList, "GHI".toList]).flatMap
    (fun rs => (["123".toList, "456".toList, "789".toList]).map (fun cs => cross rs cs))

/-- Source: `self.unitlist = self.unit_cols + self.unit_rows + self.unit_boxes` (line 37). -/
def unitlist : List (List String) := unit_cols ++ unit_rows ++ unit_boxes

/-- Source: `self.units = {e: [u for u in self.unitlist if e in u] for e in self.elements}` (line 39). -/
def units (e : String) : List (List String) :=
  unitlist.filter (fun u => u.contains e)

/-- The character filter of `parse_grid` (line 65):
`[c for c in grid if c in "123456789" or c in '0.']`. -/
def validChar (c : Char) : Bool :=
  "123456789".toList.contains c || "0.".toList.contains c

/-- The surviving symbol characters of a puzzle string (line 65). -/
def gridChars (g : String) : List Char := g.toList.filter validChar

/-- Source: `parse_grid(grid)` (lines 47-72): filter to valid symbols, fail unless
exactly 81 remain, else zip with `elements` into a dict.  A `none` argument
models Python `None` (iterating it raises `TypeError` before anything else).
Dict values are the symbol characters as length-one Python strings. -/
def parse_grid : Option String → Except PyError (List (String × String))
  | none => .error .typeError
  | some g =>
    let chars := gridChars g
    if chars.length ≠ 81 then .error .malformedPuzzle
    else .ok (elements.zip (chars.map (fun c => String.mk [c])))

/-- Python `str.split(sep)` for a single-character separator (the source
only splits on `"\n"`, `"="` and `"+"`), on the character list. -/
def splitChar (sep : Char) : List Char → List (List Char)
  | [] => [[]]
  | c :: rest =>
    match splitChar sep rest with
    | [] => [[]]
    | h :: t => if c == sep then [] :: h :: t else (c :: h) :: t

/-- Python `str.split(sep)` for a single-character separator. -/
def pySplit (s : String) (sep : Char) : List String :=
  (splitChar sep s.toList).map String.mk

/-- The (ASCII) whitespace removed by Python `str.strip()`. -/
def isSpaceChar (c : Char) : Bool :=
  c == ' ' || c == '\t' || c == '\n' || c == '\r'

/-- Python `str.strip()`: drop whitespace from both ends. -/
def pyStrip (s : String) : String :=
  String.mk (((s.toList.dropWhile isSpaceChar).reverse.dropWhile isSpaceChar).reverse)

/-- Digit-string to number; `none` when empty or any non-digit occurs. -/
def natOfDigits (l : List Char) : Option Nat :=
  if l.isEmpty then none
  else
    l.foldl
      (fun acc c =>
        match acc with
        | none => none
        | some n => if c.isDigit then some (n * 10 + (c.toNat - 48)) else none)
      (some 0)

/-- Python `int(s)`: surrounding whitespace, an optional sign and decimal
digits; anything else raises `ValueError` (embedded as `none`). -/
def pyInt (s : String) : Option Int :=
  match (pyStrip s).toList with
  | '-' :: rest => (natOfDigits rest).map (fun n => -(n : Int))
  | '+' :: rest => (natOfDigits rest).map (fun n => (n : Int))
  | rest => (natOfDigits rest).map (fun n => (n : Int))

/-- One loop iteration of `get_constraints` (lines 78-86): split the
stripped line on `=`, take `parts[0]` and `int(parts[1])` (an absent
`parts[1]` is Python's `IndexError`, a non-integer is `ValueError`),
and split the left side on `+`. -/
def parseCageConst (const : String) : Except PyError (List String × Int) :=
  match pySplit (pyStrip const) '=' with
  | p0 :: p1 :: _ =>
    match pyInt p1 with
    | some n => .ok (pySplit p0 '+', n)
    | none => .error .valueError
  | _ => .error .indexError

/-- The loop of `get_constraints` over the lines, building `retval` in
order and aborting at the first failing line. -/
def get_constraints_lines : List String → Except PyError (List (List String × Int))
  | [] => .ok []
  | l :: rest =>
    match parseCageConst l with
    | .error e => .error e
    | .ok c =>
      match get_constraints_lines rest with
      | .error e => .error e
      | .ok cs => .ok (c :: cs)

/-- Source: `get_constraints(self)` (lines 74-88): iterate
`self.constraints.strip().split("\n")` and collect `(cells, target)` pairs. -/
def get_constraints (constraints : String) : Except PyError (List (List String × Int)) :=
  get_constraints_lines (pySplit (pyStrip constraints) '\n')

/-- The cage text is optional (`self.constraints` may be `None`); `solve_z3`
only calls `get_constraints` when it is present (line 117). -/
def cagesOfOpt : Option String → Except PyError (List (List String × Int))
  | none => .ok []
  | some cs => get_constraints cs

/-- Source: `symbols['X']` for every cell of every cage succeeds exactly when each
referenced key is one of the 81 `elements`; a stray key raises `KeyError`
inside the `eval` of line 126, during model building. -/
def cageCellsOk (cages : List (List String × Int)) : Bool :=
  cages.all (fun c => c.1.all (fun e => elements.contains e))

/-- The external Z3 backend's answer, per the spec's collaborator contract:
either one satisfying assignment for the 81 integer variables, or UNSAT. -/
inductive Z3Result where
  | sat (m : String → Int)
  | unsat

/-- Source: `solve_z3(self)` (lines 90-139), with the backend's verdict passed in:
resolve the optional cage text (line 117-119), fail with `KeyError` if a
cage references an unknown cell (line 126), then consult the solver
(line 133): a non-`sat` answer raises `Exception("Unsolvable")`, otherwise
the solution dict maps each element to `model.evaluate(...).as_string()`. -/
def solve_z3 (values : List (String × String)) (constraints : Option String)
    (backend : Z3Result) : Except PyError (List (String × String)) :=
  match cagesOfOpt constraints with
  | .error e => .error e
  | .ok cages =>
    if cageCellsOk cages then
      match backend with
      | .sat m => .ok (elements.map (fun e => (e, toString (m e))))
      | .unsat => .error .unsolvable
    else .error .unknownCellReference

/-- The cell keys of the row-distinctness constraint for row `r`
(line 105): `[row + col for col in "123456789"]`. -/
def rowCellList (r : Char) : List String := cols.map (fun c => String.mk [r, c])

/-- The cell keys of the column-distinctness constraint for column `c`
(line 109): `[row + col for row in "ABCDEFGHI"]`. -/
def colCellList (c : Char) : List String := rows.map (fun r => String.mk [r, c])

/-- The cell keys of the box-distinctness constraint for band `i`, stack `j`
(line 114): `["ABCDEFGHI"[m + i*3] + "123456789"[n + j*3] for m in range(3) for n in range(3)]`. -/
def boxCellList (i j : Nat) : List String :=
  ([0, 1, 2] : List Nat).flatMap (fun m =>
    ([0, 1, 2] : List Nat).map (fun n =>
      String.mk [rows.getD (m + i * 3) ' ', cols.getD (n + j * 3) ' ']))

/-- Python `int(c)` for a digit character. -/
def charToInt (c : Char) : Int := (c.toNat : Int) - 48

/-- The integer a one-character digit string denotes (the fixed-cell
constraint of line 131 equates the cell's variable with this value). -/
def strToInt (s : String) : Int := (pyInt s).getD 0

/-- Python's `k in s` on strings is substring containment. -/
def pyInStr (k s : String) : Bool := decide (k.toList <:+: s.toList)

/-- Domain constraints (lines 100-101): each of the 81 variables equals one
of the digits `int(i) for i in self.cols`. -/
def domainOk (A : String → Int) : Prop :=
  ∀ e ∈ elements, A e ∈ cols.map charToInt

/-- Row distinctness (lines 104-105): z3 `Distinct` means pairwise
different, i.e. the mapped value list has no duplicates. -/
def rowsDistinct (A : String → Int) : Prop :=
  ∀ r ∈ rows, ((rowCellList r).map A).Nodup

/-- Column distinctness (lines 108-109). -/
def colsDistinct (A : String → Int) : Prop :=
  ∀ c ∈ cols, ((colCellList c).map A).Nodup

/-- Box distinctness (lines 112-114). -/
def boxesDistinct (A : String → Int) : Prop :=
  ∀ i ∈ ([0, 1, 2] : List Nat), ∀ j ∈ ([0, 1, 2] : List Nat),
    ((boxCellList i j).map A).Nodup

/-- One cage-sum constraint (lines 120-126): the built expression
`symbols[c₁]+...+symbols[cₙ] == target` sums every referenced cell's
variable, duplicates included. -/
def cageOk (A : String → Int) (cg : List String × Int) : Prop :=
  (cg.1.map A).sum = cg.2

/-- All cage-sum constraints. -/
def cagesOk (cages : List (List String × Int)) (A : String → Int) : Prop :=
  ∀ cg ∈ cages, cageOk A cg

/-- Fixed-cell constraints (lines 129-131): every originally-given cell
(value a digit of `"123456789"`) pins its variable to that digit. -/
def fixedOk (values : List (String × String)) (A : String → Int) : Prop :=
  ∀ p ∈ values, pyInStr p.2 "123456789" = true → A p.1 = strToInt p.2

/-- The complete constraint set `solve_z3` hands to the solver. -/
def sudokuConstraints (values : List (String × String))
    (cages : List (List String × Int)) (A : String → Int) : Prop :=
  domainOk A ∧ rowsDistinct A ∧ colsDistinct A ∧ boxesDistinct A
    ∧ cagesOk cages A ∧ fixedOk values A

/-- The external backend's contract (spec §1): a `sat` answer comes with a
model of the constraint set, `unsat` means no model exists. -/
def Z3Spec (values : List (String × String)) (cages : List (List String × Int)) :
    Z3Result → Prop
  | .sat A => sudokuConstraints values cages A
  | .unsat => ¬ ∃ A, sudokuConstraints values cages A

/-- Source: `get_oneline_grid(self, grid)` (lines 141-143). -/
def get_oneline_grid (grid : List (String × String)) : String :=
  "[+] GRID:" ++ String.join (elements.map (fun e => (List.lookup e grid).getD "")) ++ "\n"

/-- Source: `set("123456789")` as used on line 196: the digit characters as
length-one Python strings. -/
def digitStrings : List String := "123456789".toList.map (fun c => String.mk [c])

/-- Source: `unitsolved = lambda u: set([self.solution[e] for e in u]) == set("123456789")`
(line 196). -/
def unitsolved (solution : List (String × String)) (u : List String) : Bool :=
  decide ((u.map (fun e => (List.lookup e solution).getD "")).toFinset = digitStrings.toFinset)

/-- Source: `is_solved(self)` (lines 190-197): every dict value must be a
(substring-)member of `"123456789"`, and every unit's value set must equal
`set("123456789")`.  It reads nothing but `self.solution` and the unit list:
in particular it never looks at the cage constraints. -/
def is_solved (solution : List (String × String)) : Bool :=
  if ¬ (solution.map (fun p => p.2)).all (fun k => pyInStr k "123456789") then false
  else unitlist.all (fun u => unitsolved solution u)

/-- Source: `Sudoku.__init__` (lines 8-41): the fields that carry program state.
`parse_grid(problem)` runs before any unit construction or solving. -/
structure State where
  problem : List (String × String)
  constraints : Option String
deriving Repr

/-- Source: `Sudoku(problem, constraints)` as a fallible constructor: `__init__`
calls `self.parse_grid(problem)` (line 28), so a `None` problem fails there
with `TypeError` before any solving can happen. -/
def init (problem : Option String) (constraints : Option String) : Except PyError State := do
  let vals ← parse_grid problem
  pure { problem := vals, constraints := constraints }

/-! ## Claim C4: puzzle-parser filtering and failure -/

theorem gridChars_mk_idem (g : String) :
    gridChars (String.mk (gridChars g)) = gridChars g := by
  show (g.toList.filter validChar).filter validChar = g.toList.filter validChar
  simp [List.filter_filter]

theorem gridChars_append (a b : String) :
    gridChars (a ++ b) = gridChars a ++ gridChars b := by
  show ((a ++ b).data.filter validChar) = _
  rw [String.data_append, List.filter_append]
  rfl

/-- C4: `parse_grid` first discards every character that is not one of
the valid symbols `{1..9, 0, .}` and fails with `MalformedPuzzle` exactly
when the surviving symbol count differs from 81: parsing a string is the
same as parsing its filtered symbols, an 80-symbol string fails, and
inserting a non-symbol character anywhere never changes the outcome. -/
theorem parse_grid_malformed (g : String) :
    (parse_grid (some g) = .error .malformedPuzzle ↔ (gridChars g).length ≠ 81)
    ∧ parse_grid (some g) = parse_grid (some (String.mk (gridChars g)))
    ∧ ((gridChars g).length = 80 → parse_grid (some g) = .error .malformedPuzzle)
    ∧ (∀ (g1 g2 : String) (c : Char), validChar c = false →
        parse_grid (some (g1 ++ String.mk [c] ++ g2)) = parse_grid (some (g1 ++ g2))) := by
  refine ⟨?_, ?_, ?_, ?_⟩
  · by_cases h : (gridChars g).length = 81 <;> simp [parse_grid, h]
  · by_cases h : (gridChars g).length = 81 <;>
      simp [parse_grid, h, gridChars_mk_idem]
  · intro h
    have h81 : (gridChars g).length ≠ 81 := by omega
    simp [parse_grid, h81]
  · intro g1 g2 c hc
    have hmid : gridChars (String.mk [c]) = [] := by
      show [c].filter validChar = []
      simp [List.filter, hc]
    have hsame : gridChars (g1 ++ String.mk [c] ++ g2) = gridChars (g1 ++ g2) := by
      rw [gridChars_append, gridChars_append, gridChars_append, hmid]
      simp
    simp only [parse_grid, hsame]

/-- Witness for C4: an 80-zero string fails with `MalformedPuzzle`, and the
non-symbol character `x` is transparent to the parser. -/
theorem parse_grid_malformed_witness :
    parse_grid (some "00000000000000000000000000000000000000000000000000000000000000000000000000000000")
      = .error .malformedPuzzle
    ∧ parse_grid (some ("| 1 2" ++ String.mk ['x'] ++ " |")) = parse_grid (some ("| 1 2" ++ " |")) :=
  ⟨(parse_grid_malformed
      "00000000000000000000000000000000000000000000000000000000000000000000000000000000").2.2.1
      (by decide),
   (parse_grid_malformed "").2.2.2 "| 1 2" " |" 'x' (by decide)⟩

/-! ## Claim C6: unknown cage cell references -/

/-- C6: If any cage references a cell key outside the 81 valid keys,
the run fails with `UnknownCellReference` (the `KeyError` from
`symbols[...]` during constraint building), and it does so for *every*
backend verdict — the failure happens at model-build time, before the
search is ever consulted. -/
theorem solve_z3_unknown_cell (values : List (String × String))
    (constraints : Option String) (cages : List (List String × Int))
    (hc : cagesOfOpt constraints = .ok cages)
    (hbad : cageCellsOk cages = false) :
    ∀ backend : Z3Result,
      solve_z3 values constraints backend = .error .unknownCellReference := by
  intro backend
  simp [solve_z3, hc, hbad]

/-- Witness for C6: the cage text `Z1+A1=5` references the invalid key
`Z1`; solving fails with `UnknownCellReference` whatever the backend says. -/
theorem solve_z3_unknown_cell_witness :
    solve_z3 [] (some "Z1+A1=5") Z3Result.unsat = .error .unknownCellReference :=
  solve_z3_unknown_cell [] (some "Z1+A1=5") [(["Z1", "A1"], 5)] (by rfl) (by decide) Z3Result.unsat

/-! ## Claim C1: soundness of a produced solution -/

theorem mem_digits_bounds : ∀ x ∈ cols.map charToInt, 1 ≤ x ∧ x ≤ 9 := by decide

theorem unit_length_nine : ∀ u ∈ unitlist, u.length = 9 := by decide

theorem unit_mem_elements : ∀ u ∈ unitlist, ∀ e ∈ u, e ∈ elements := by decide

/-- Every unit of `unitlist` is one of the 27 distinctness constraints the
solver actually receives (a row, a column, or a box cell list). -/
theorem units_covered : ∀ u ∈ unitlist,
    (∃ r ∈ rows, u = rowCellList r)
    ∨ (∃ c ∈ cols, u = colCellList c)
    ∨ (∃ i ∈ ([0, 1, 2] : List Nat), ∃ j ∈ ([0, 1, 2] : List Nat), u = boxCellList i j) := by
  decide

/-- Nine pairwise-distinct integers between 1 and 9 are exactly `{1..9}`. -/
theorem nodup_nine_toFinset_eq (l : List Int) (hn : l.Nodup) (hl : l.length = 9)
    (hmem : ∀ x ∈ l, 1 ≤ x ∧ x ≤ 9) : l.toFinset = Finset.Icc (1 : Int) 9 := by
  apply Finset.eq_of_subset_of_card_le
  · intro x hx
    rw [List.mem_toFinset] at hx
    exact Finset.mem_Icc.mpr (hmem x hx)
  · rw [List.toFinset_card_of_nodup hn, hl, Int.card_Icc]
    decide

/-- C1: For a satisfiable constraint set, the assignment the engine
produces (the backend's model, which satisfies every constraint `solve_z3`
added) yields a solution dict that is total over all 81 cells in canonical
order; the model maps every cell to a digit in `1..9`, gives each of the 27
units nine pairwise-distinct digits that form exactly the set `{1..9}`, and
agrees with every originally-given fixed cell of the input puzzle. -/
theorem solve_z3_sound (values : List (String × String)) (constraints : Option String)
    (cages : List (List String × Int)) (A : String → Int)
    (hc : cagesOfOpt constraints = .ok cages)
    (hok : cageCellsOk cages = true)
    (hA : sudokuConstraints values cages A) :
    solve_z3 values constraints (.sat A) = .ok (elements.map (fun e => (e, toString (A e))))
    ∧ elements.length = 81
    ∧ unitlist.length = 27
    ∧ (∀ e ∈ elements, 1 ≤ A e ∧ A e ≤ 9)
    ∧ (∀ u ∈ unitlist, (u.map A).Nodup ∧ (u.map A).toFinset = Finset.Icc (1 : Int) 9)
    ∧ (∀ p ∈ values, pyInStr p.2 "123456789" = true → A p.1 = strToInt p.2) := by
  obtain ⟨hdom, hrow, hcol, hbox, _hcage, hfix⟩ := hA
  refine ⟨by simp [solve_z3, hc, hok], by decide, by decide, ?_, ?_, hfix⟩
  · intro e he
    exact mem_digits_bounds _ (hdom e he)
  · intro u hu
    have h9 : (u.map A).length = 9 := by
      rw [List.length_map]
      exact unit_length_nine u hu
    have hnd : (u.map A).Nodup := by
      rcases units_covered u hu with ⟨r, hr, rfl⟩ | ⟨c, hcm, rfl⟩ | ⟨i, hi, j, hj, rfl⟩
      · exact hrow r hr
      · exact hcol c hcm
      · exact hbox i hi j hj
    refine ⟨hnd, ?_⟩
    apply nodup_nine_toFinset_eq _ hnd h9
    intro x hx
    rcases List.mem_map.mp hx with ⟨e, he, rfl⟩
    exact mem_digits_bounds _ (hdom e (unit_mem_elements u hu e he))

/-- The "hardest" demo puzzle of the source (lines 201-215), row-major. -/
def hardestProblem : String :=
  "800000000003600000070090200050007000000045700000100030001000068008500010090000400"

/-- Its unique solution grid, row-major. -/
def hardestSolutionChars : List Char :=
  "812753649943682175675491283154237896369845721287169534521974368438526917796318452".toList

def hardestValues : List (String × String) :=
  elements.zip ((gridChars hardestProblem).map (fun c => String.mk [c]))

def hardestModel : String → Int :=
  fun e => charToInt ((List.lookup e (elements.zip hardestSolutionChars)).getD '0')

/-- Witness for C1 at the source's own demo puzzle and its solution. -/
theorem solve_z3_sound_witness :
    solve_z3 hardestValues none (.sat hardestModel)
        = .ok (elements.map (fun e => (e, toString (hardestModel e))))
    ∧ elements.length = 81
    ∧ unitlist.length = 27
    ∧ (∀ e ∈ elements, 1 ≤ hardestModel e ∧ hardestModel e ≤ 9)
    ∧ (∀ u ∈ unitlist,
        (u.map hardestModel).Nodup ∧ (u.map hardestModel).toFinset = Finset.Icc (1 : Int) 9)
    ∧ (∀ p ∈ hardestValues, pyInStr p.2 "123456789" = true
        → hardestModel p.1 = strToInt p.2) :=
  solve_z3_sound hardestValues none [] hardestModel (by rfl) (by decide)
    (by
      unfold sudokuConstraints domainOk rowsDistinct colsDistinct boxesDistinct cagesOk
        cageOk fixedOk
      decide)

/-! ## Claim C2: unsatisfiable constraint sets -/

/-- A cage `A1+A1=3` is unsatisfiable: the built expression sums the `A1`
variable twice, and `2x = 3` has no integer solution. -/
theorem cage_double_A1_unsat (values : List (String × String)) :
    ¬ ∃ A : String → Int, sudokuConstraints values [(["A1", "A1"], 3)] A := by
  rintro ⟨A, hA⟩
  obtain ⟨-, -, -, -, hcage, -⟩ := hA
  have h := hcage (["A1", "A1"], 3) (by simp)
  simp only [cageOk, List.map_cons, List.map_nil, List.sum_cons, List.sum_nil] at h
  omega

/-- C2: When the constraint set has no solution, a backend honouring
its contract answers `unsat`, and `solve_z3` turns that into the dedicated
`Unsolvable` failure (the spec's `Unsatisfiable`): a result value distinct
from every other failure of the program, never a (partial) assignment and
never a "don't know". -/
theorem solve_z3_unsat_reports (values : List (String × String))
    (constraints : Option String) (cages : List (List String × Int))
    (backend : Z3Result)
    (hc : cagesOfOpt constraints = .ok cages)
    (hok : cageCellsOk cages = true)
    (hb : Z3Spec values cages backend)
    (hns : ¬ ∃ A : String → Int, sudokuConstraints values cages A) :
    solve_z3 values constraints backend = .error .unsolvable
    ∧ (∀ sol, solve_z3 values constraints backend ≠ .ok sol)
    ∧ PyError.unsolvable ≠ PyError.malformedPuzzle
    ∧ PyError.unsolvable ≠ PyError.unknownCellReference
    ∧ PyError.unsolvable ≠ PyError.typeError
    ∧ PyError.unsolvable ≠ PyError.indexError
    ∧ PyError.unsolvable ≠ PyError.valueError := by
  cases backend with
  | sat m => exact absurd ⟨m, hb⟩ hns
  | unsat =>
    refine ⟨by simp [solve_z3, hc, hok], ?_, by decide, by decide, by decide, by decide, by decide⟩
    intro sol
    simp [solve_z3, hc, hok]

def blankValues : List (String × String) :=
  elements.zip (List.replicate 81 "0")

/-- Witness for C2: an all-blank puzzle with the impossible cage
`A1+A1=3`. -/
theorem solve_z3_unsat_reports_witness :
    solve_z3 blankValues (some "A1+A1=3") Z3Result.unsat = .error .unsolvable
    ∧ (∀ sol, solve_z3 blankValues (some "A1+A1=3") Z3Result.unsat ≠ .ok sol)
    ∧ PyError.unsolvable ≠ PyError.malformedPuzzle
    ∧ PyError.unsolvable ≠ PyError.unknownCellReference
    ∧ PyError.unsolvable ≠ PyError.typeError
    ∧ PyError.unsolvable ≠ PyError.indexError
    ∧ PyError.unsolvable ≠ PyError.valueError :=
  solve_z3_unsat_reports blankValues (some "A1+A1=3") [(["A1", "A1"], 3)] Z3Result.unsat
    (by rfl) (by decide) (cage_double_A1_unsat blankValues) (cage_double_A1_unsat blankValues)

/-! ## Claim C5: the cage parser -/

/-- The cage record exactly as the spec's words describe it (§4.3): the
line is split on `=` into a left-hand cell expression and a right-hand
integer target, and the left side is split on `+` into the individual cell
references, kept in order with duplicates preserved. -/
def specCageRecord (line : String) : Option (List String × Int) :=
  let parts := pySplit (pyStrip line) '='
  (pyInt (parts.getD 1 "")).map (fun t => (pySplit (parts.headD "") '+', t))

theorem pyInt_empty : pyInt "" = none := rfl

/-- The code's per-line parse agrees with the spec's description whenever it
succeeds. -/
theorem parseCageConst_spec (l : String) (c : List String × Int) :
    parseCageConst l = .ok c ↔ specCageRecord l = some c := by
  unfold parseCageConst specCageRecord
  cases hp : pySplit (pyStrip l) '=' with
  | nil => simp [hp, pyInt_empty]
  | cons p0 t =>
    cases t with
    | nil => simp [hp, pyInt_empty]
    | cons p1 rest =>
      cases hi : pyInt p1 with
      | none => simp [hp, hi]
      | some n => simp [hp, hi]

theorem get_constraints_lines_spec (ls : List String) (cages : List (List String × Int))
    (h : get_constraints_lines ls = .ok cages) :
    cages = ls.map (fun l => (specCageRecord l).getD ([], 0))
    ∧ ∀ l ∈ ls, (specCageRecord l).isSome = true := by
  induction ls generalizing cages with
  | nil =>
    simp [get_constraints_lines] at h
    simp [← h]
  | cons l rest ih =>
    unfold get_constraints_lines at h
    cases hp : parseCageConst l with
    | error e => rw [hp] at h; exact absurd h (by simp)
    | ok c =>
      rw [hp] at h
      cases hr : get_constraints_lines rest with
      | error e => rw [hr] at h; exact absurd h (by simp)
      | ok cs =>
        rw [hr] at h
        have hcc : c :: cs = cages := by
          simpa using h
        have hspec := (parseCageConst_spec l c).mp hp
        obtain ⟨ih1, ih2⟩ := ih cs hr
        subst hcc
        refine ⟨by simp [hspec, ← ih1], ?_⟩
        intro l' hl'
        rcases List.mem_cons.mp hl' with rfl | hl'
        · simp [hspec]
        · exact ih2 l' hl'

/-- C5: For every cage text the parser accepts, the produced cages are,
in order, exactly what the spec describes for each line of the input: the
line split on `=` into cell expression and integer target, the cell
expression split on `+` into individual references.  Duplicate references
within a cage are preserved, and the solver's cage sum counts a repeated
reference once per occurrence (`count c • A c`). -/
theorem get_constraints_follows_spec (text : String) (cages : List (List String × Int))
    (h : get_constraints text = .ok cages) :
    cages = (pySplit (pyStrip text) '\n').map (fun l => (specCageRecord l).getD ([], 0))
    ∧ (∀ l ∈ pySplit (pyStrip text) '\n', (specCageRecord l).isSome = true)
    ∧ (∀ cg ∈ cages, ∀ A : String → Int,
        (cg.1.map A).sum = ∑ c ∈ cg.1.toFinset, List.count c cg.1 • A c) := by
  obtain ⟨h1, h2⟩ := get_constraints_lines_spec _ cages h
  exact ⟨h1, h2, fun cg _ A => Finset.sum_list_map_count cg.1 A⟩

/-- Witness for C5 on a two-cage text with repeated cell references
(`H4` twice in the first cage, `A2` twice in the second). -/
theorem get_constraints_follows_spec_witness :
    ([(["B9", "B8", "C1", "H4", "H4"], (23 : Int)), (["A2", "A2"], 10)]
        : List (List String × Int))
      = (pySplit (pyStrip "B9+B8+C1+H4+H4=23\n  A2+A2=10") '\n').map
          (fun l => (specCageRecord l).getD ([], 0))
    ∧ (∀ l ∈ pySplit (pyStrip "B9+B8+C1+H4+H4=23\n  A2+A2=10") '\n',
        (specCageRecord l).isSome = true)
    ∧ (∀ cg ∈ ([(["B9", "B8", "C1", "H4", "H4"], (23 : Int)), (["A2", "A2"], 10)]
          : List (List String × Int)),
        ∀ A : String → Int,
          (cg.1.map A).sum = ∑ c ∈ cg.1.toFinset, List.count c cg.1 • A c) :=
  get_constraints_follows_spec "B9+B8+C1+H4+H4=23\n  A2+A2=10"
    [(["B9", "B8", "C1", "H4", "H4"], 23), (["A2", "A2"], 10)] (by rfl)

/-! ## Claim C7: cross-product order and parser indexing -/

theorem cross_length (A B : List Char) : (cross A B).length = A.length * B.length := by
  induction A with
  | nil => simp [cross]
  | cons a A ih =>
    show (B.map _ ++ cross A B).length = (A.length + 1) * B.length
    rw [List.length_append, List.length_map, ih, Nat.succ_mul]
    omega

theorem cross_getElem (A B : List Char) (i j : Nat) (hi : i < A.length) (hj : j < B.length) :
    (cross A B)[i * B.length + j]? = some (String.mk [A.getD i ' ', B.getD j ' ']) := by
  induction A generalizing i with
  | nil => exact absurd hi (by simp)
  | cons a A ih =>
    cases i with
    | zero =>
      show (B.map (fun b => String.mk [a, b]) ++ cross A B)[0 * B.length + j]? = _
      rw [Nat.zero_mul, Nat.zero_add, List.getElem?_append, List.length_map, if_pos hj,
        List.getElem?_map, List.getElem?_eq_getElem hj]
      simp [List.getD_eq_getElem?_getD, List.getElem?_eq_getElem hj]
    | succ i =>
      have hidx : (i + 1) * B.length + j = B.length + (i * B.length + j) := by ring
      have hi' : i < A.length := Nat.lt_of_succ_lt_succ hi
      show (B.map (fun b => String.mk [a, b]) ++ cross A B)[(i + 1) * B.length + j]? = _
      rw [hidx, List.getElem?_append, List.length_map, if_neg (by omega),
        Nat.add_sub_cancel_left]
      exact ih i hi'

theorem lookup_cons_of_ne {β : Type} (k k' : String) (v : β) (l : List (String × β))
    (h : k' ≠ k) : List.lookup k' ((k, v) :: l) = List.lookup k' l := by
  simp [List.lookup, beq_eq_false_iff_ne.mpr h]

theorem lookup_zip_index {β : Type} (ks : List String) (vs : List β) (i : Nat)
    (hn : ks.Nodup) (hlen : vs.length = ks.length) (hi : i < ks.length) :
    List.lookup (ks.getD i "") (ks.zip vs) = vs[i]? := by
  induction ks generalizing vs i with
  | nil => exact absurd hi (by simp)
  | cons k ks ih =>
    cases vs with
    | nil => exact absurd hlen (by simp)
    | cons v vs =>
      cases i with
      | zero =>
        rw [List.getD_cons_zero, List.zip_cons_cons, List.getElem?_cons_zero]
        simp [List.lookup]
      | succ i =>
        have hi' : i < ks.length := Nat.lt_of_succ_lt_succ hi
        have hmem : ks.getD i "" ∈ ks := by
          rw [List.getD_eq_getElem?_getD, List.getElem?_eq_getElem hi']
          exact List.getElem_mem hi'
        have hne : ks.getD i "" ≠ k := by
          intro hk
          exact (List.nodup_cons.mp hn).1 (hk ▸ hmem)
        rw [List.getD_cons_succ, List.zip_cons_cons, List.getElem?_cons_succ,
          lookup_cons_of_ne _ _ _ _ hne]
        exact ih vs i (List.nodup_cons.mp hn).2 (by simpa using hlen) hi'

theorem map_lookup_zip (ks vs : List String) (hn : ks.Nodup) (hlen : vs.length = ks.length) :
    ks.map (fun k => (List.lookup k (ks.zip vs)).getD "") = vs := by
  induction ks generalizing vs with
  | nil =>
    cases vs with
    | nil => rfl
    | cons v vs => exact absurd hlen (by simp)
  | cons k ks ih =>
    cases vs with
    | nil => exact absurd hlen (by simp)
    | cons v vs =>
      rw [List.zip_cons_cons, List.map_cons]
      congr 1
      · simp [List.lookup]
      · have hk : k ∉ ks := (List.nodup_cons.mp hn).1
        have hcong : ks.map (fun k' => (List.lookup k' ((k, v) :: ks.zip vs)).getD "")
            = ks.map (fun k' => (List.lookup k' (ks.zip vs)).getD "") := by
          apply List.map_congr_left
          intro a ha
          have hne : a ≠ k := fun h => hk (h ▸ ha)
          rw [lookup_cons_of_ne _ _ _ _ hne]
        rw [hcong]
        exact ih vs (List.nodup_cons.mp hn).2 (by simpa using hlen)

/-- C7: `cross` is a pure function returning the `letters×digits` cell
keys in row-major, then-column order (`(cross A B)[i*|B|+j] = A[i] ++ B[j]`),
and for every 81-symbol input the parser's assignment maps the `i`-th cell
of that canonical order to the `i`-th valid symbol of the filtered input. -/
theorem cross_order_and_parse (A B : List Char) (i j : Nat)
    (hi : i < A.length) (hj : j < B.length) :
    (cross A B).length = A.length * B.length
    ∧ (cross A B)[i * B.length + j]? = some (String.mk [A.getD i ' ', B.getD j ' '])
    ∧ (∀ (g : String) (v : List (String × String)),
        parse_grid (some g) = .ok v →
        ∀ n, n < 81 →
          List.lookup (elements.getD n "") v
            = some (String.mk [(gridChars g).getD n ' '])) := by
  refine ⟨cross_length A B, cross_getElem A B i j hi hj, ?_⟩
  intro g v hv n hn
  by_cases h81 : (gridChars g).length = 81
  · have hveq : v = elements.zip ((gridChars g).map (fun c => String.mk [c])) := by
      rw [parse_grid] at hv
      simp only [h81, ne_eq, not_true_eq_false, if_false] at hv
      exact (Except.ok.injEq _ _).mp hv.symm
    subst hveq
    have hlen : ((gridChars g).map (fun c => String.mk [c])).length = elements.length := by
      rw [List.length_map, h81]
      decide
    have hn' : n < elements.length := by
      have : elements.length = 81 := by decide
      omega
    rw [lookup_zip_index elements _ n (by decide) hlen hn']
    have hn'' : n < (gridChars g).length := by omega
    rw [List.getElem?_map, List.getElem?_eq_getElem hn'']
    simp [List.getD_eq_getElem?_getD, List.getElem?_eq_getElem hn'']
  · rw [parse_grid] at hv
    simp only [h81, if_true, ne_eq] at hv
    exact absurd hv (by simp [h81])

/-- Witness for C7: position `(2,4)` of the cross product is `C5`, and the
parsed demo puzzle maps the first cell `A1` to the first symbol `8`. -/
theorem cross_order_and_parse_witness :
    (cross rows cols).length = rows.length * cols.length
    ∧ (cross rows cols)[2 * cols.length + 4]?
        = some (String.mk [rows.getD 2 ' ', cols.getD 4 ' '])
    ∧ List.lookup (elements.getD 0 "") hardestValues
        = some (String.mk [(gridChars hardestProblem).getD 0 ' ']) := by
  have h := cross_order_and_parse rows cols 2 4 (by decide) (by decide)
  exact ⟨h.1, h.2.1, h.2.2 hardestProblem hardestValues (by rfl) 0 (by decide)⟩

/-! ## Claim C8: parse/render round trip -/

theorem foldl_append_singletons (cs : List Char) (s : String) :
    (cs.map (fun c => String.mk [c])).foldl (fun r t => r ++ t) s
      = String.mk (s.data ++ cs) := by
  induction cs generalizing s with
  | nil => cases s; simp
  | cons c cs ih =>
    show (cs.map (fun c => String.mk [c])).foldl (fun r t => r ++ t) (s ++ String.mk [c])
        = String.mk (s.data ++ (c :: cs))
    rw [ih, String.data_append]
    simp

theorem join_singleton_chars (cs : List Char) :
    String.join (cs.map (fun c => String.mk [c])) = String.mk cs := by
  show (cs.map (fun c => String.mk [c])).foldl (fun r t => r ++ t) "" = String.mk cs
  rw [foldl_append_singletons]
  rfl

/-- C8: Parsing a valid 81-symbol puzzle string and rendering the
resulting assignment in one-line form reproduces the filtered input's
81-symbol sequence *exactly* (in particular unchanged up to the
interchangeable unknown markers `0` and `.`), wrapped in the fixed
`"[+] GRID:"` prefix and newline suffix of `get_oneline_grid`. -/
theorem parse_render_roundtrip (g : String) (v : List (String × String))
    (h : parse_grid (some g) = .ok v) :
    get_oneline_grid v = "[+] GRID:" ++ String.mk (gridChars g) ++ "\n" := by
  by_cases h81 : (gridChars g).length = 81
  · have hveq : v = elements.zip ((gridChars g).map (fun c => String.mk [c])) := by
      rw [parse_grid] at h
      simp only [h81, ne_eq, not_true_eq_false, if_false] at h
      exact (Except.ok.injEq _ _).mp h.symm
    subst hveq
    rw [get_oneline_grid]
    rw [map_lookup_zip elements _ (by decide) (by rw [List.length_map, h81]; decide)]
    rw [join_singleton_chars]
  · rw [parse_grid] at h
    simp only [h81, if_true, ne_eq] at h
    exact absurd h (by simp [h81])

/-- Witness for C8 at the source's demo puzzle. -/
theorem parse_render_roundtrip_witness :
    get_oneline_grid hardestValues
      = "[+] GRID:" ++ String.mk (gridChars hardestProblem) ++ "\n" :=
  parse_render_roundtrip hardestProblem hardestValues (by rfl)

/-! ## Claim C9: unit membership -/

/-- C9: In the constructed grid model every one of the 81 cells belongs
to exactly 3 units — its `units` entry lists exactly 3 of the 27 units, and
exactly one member of each family (one row, one column, one box). -/
theorem units_exactly_three (e : String) (he : e ∈ elements) :
    (units e).length = 3
    ∧ (unit_rows.filter (fun u => u.contains e)).length = 1
    ∧ (unit_cols.filter (fun u => u.contains e)).length = 1
    ∧ (unit_boxes.filter (fun u => u.contains e)).length = 1 := by
  revert he
  revert e
  decide

/-- Witness for C9 at the concrete cell `E5`. -/
theorem units_exactly_three_witness :
    (units "E5").length = 3
    ∧ (unit_rows.filter (fun u => u.contains "E5")).length = 1
    ∧ (unit_cols.filter (fun u => u.contains "E5")).length = 1
    ∧ (unit_boxes.filter (fun u => u.contains "E5")).length = 1 :=
  units_exactly_three "E5" (by decide)

/-! ## Claim C10: constructing a Sudoku without a puzzle fails -/

/-- C10: `Sudoku()` with the constructor's default `problem=None` fails:
`parse_grid` iterates its argument, so a `None` puzzle raises `TypeError`
before any solving; and every successfully constructed instance came from an
actual string. -/
theorem init_none_fails :
    (∀ c : Option String, init none c = .error .typeError)
    ∧ parse_grid none = .error .typeError
    ∧ (∀ (p c : Option String) (s : State), init p c = .ok s → ∃ g : String, p = some g) := by
  refine ⟨fun c => rfl, rfl, fun p c s h => ?_⟩
  cases p with
  | none => simp [init, parse_grid] at h
  | some g => exact ⟨g, rfl⟩

/-- Witness for C10: the `None` default fails, and a successfully built
instance (here: from the demo puzzle) indeed came from a string. -/
theorem init_none_fails_witness :
    init none none = .error .typeError
    ∧ ∃ g : String, (some hardestProblem : Option String) = some g :=
  ⟨init_none_fails.1 none,
   init_none_fails.2.2 (some hardestProblem) none
     { problem := hardestValues, constraints := none } (by rfl)⟩

/-! ## Claim C3: the verifier skips the cage-sum re-check -/

/-- The solution dict for the demo puzzle, as `solve_z3` would store it. -/
def hardestSolutionDict : List (String × String) :=
  elements.zip (hardestSolutionChars.map (fun c => String.mk [c]))

/-- C3, refuted by the code: (failing input for the claim): `is_solved`
consumes only `self.solution` — no cage data at all — so on a grid that
satisfies every cell/unit condition it returns `true` even though the cage
constraint `A1+A1=100` parsed from the cage text is violated
(`8 + 8 = 16 ≠ 100`).  The claim's "full verification includes the
cage-sum re-check" is what the spec mandates, but the code never performs
it. -/
theorem is_solved_skips_cage_check :
    is_solved hardestSolutionDict = true
    ∧ get_constraints "A1+A1=100" = .ok [(["A1", "A1"], 100)]
    ∧ ¬ cageOk (fun e => strToInt ((List.lookup e hardestSolutionDict).getD ""))
        (["A1", "A1"], 100) := by
  refine ⟨by decide, by rfl, ?_⟩
  unfold cageOk
  decide

end Sudoku
